import Mathlib

/-!
# Verification of the `accounts` module (src/accounts.py)

Shallow embedding of the personal-ledger program in `src/accounts.py`.

Modelling conventions:
* The content of an account's `ledger.csv` file is a `List Record` in append
  order; typed field values stand for the CSV cells (serialisation of a date
  or an amount into its CSV/report string is modelled by the explicit
  functions `showDate` and `showAmount`).
* Monetary values are exact rationals `ℚ`; Python's `round` builtin
  (round-half-to-even) is modelled by `pyRound` (no digits, result an
  integer) and `pyRound2` (two decimal digits).
* Methods that can raise (`data[-1]` on an empty list, a missing dict key,
  `data2[0]` on an empty export) return `Option`, with `none` for the raise.
* Python iterates the set `categories` twice inside one `print_report`
  call; the iteration order of an unmutated set is fixed within a call, so
  the order is modelled by a single list parameter `cats` used by both
  loops.
-/

namespace Accounts

/-- Python's builtin `round(x)` with no digits argument: round half to even,
returning an integer. -/
def pyRound (q : ℚ) : ℤ :=
  if q - ⌊q⌋ < 1/2 then ⌊q⌋
  else if 1/2 < q - ⌊q⌋ then ⌊q⌋ + 1
  else if ⌊q⌋ % 2 = 0 then ⌊q⌋ else ⌊q⌋ + 1

/-- Python's builtin `round(x, 2)`: round half to even at two decimal
digits. -/
def pyRound2 (q : ℚ) : ℚ :=
  (pyRound (q * 100) : ℚ) / 100

/-- A calendar date (no time component). -/
structure Date where
  year : Nat
  month : Nat
  day : Nat
deriving DecidableEq

/-- One row of `ledger.csv`: the record written by `Account.ledger`, in the
CSV column order `date, category, desc, mode_of_payment, amount`. -/
structure Record where
  date : Date
  category : String
  desc : String
  mode_of_payment : String
  amount : ℚ
deriving DecidableEq

/-- `Account.previous_balance`: read the file and return
`float(data[-1]["amount"])`; on an empty history `data[-1]` raises
(`none`). -/
def previous_balance (l : List Record) : Option ℚ :=
  l.getLast?.map (fun r => r.amount)

/-- `Account.credit_amount`: `amount + self.previous_balance(...)`. -/
def credit_amount (l : List Record) (amount : ℚ) : Option ℚ :=
  (previous_balance l).map (fun b => amount + b)

/-- `Account.debit`: `self.previous_balance(...) - amount`. -/
def debit (l : List Record) (amount : ℚ) : Option ℚ :=
  (previous_balance l).map (fun b => b - amount)

/-- `Account.ledger`: append one row whose stored `amount` is
`round(amount)` — Python integer rounding. -/
def ledger (l : List Record) (date : Date) (amount : ℚ)
    (category desc mode_of_payment : String) : List Record :=
  l ++ [{ date := date, category := category, desc := desc,
          mode_of_payment := mode_of_payment,
          amount := ((pyRound amount : ℤ) : ℚ) }]

/-- `Account.transaction`: compute the new balance with `credit_amount` or
`debit`, reject if negative, otherwise append `round(new_balance, 2)` via
`ledger`. `none` models the exception raised on an empty history. -/
def transaction (l : List Record) (today : Date) (amount : ℚ)
    (category desc mode_of_payment : String) (credit : Bool) :
    Option (String × List Record) :=
  match (if credit then credit_amount l amount else debit l amount) with
  | none => none
  | some a =>
    if a < 0 then some ("Unable to make transaction", l)
    else some ("Transaction successful.",
               ledger l today (pyRound2 a) category desc mode_of_payment)

/-- `Account.__init__`: seed the ledger with the opening record
`ledger(today, round(initial_amount_paid, 2), "Credit",
"Initial amount credited", "UPI")`. -/
def mkAccount (today : Date) (initial_amount_paid : ℚ) : List Record :=
  ledger [] today (pyRound2 initial_amount_paid) "Credit"
    "Initial amount credited" "UPI"

/-- The arguments of one `transaction` call. -/
structure TxnInput where
  amount : ℚ
  category : String
  desc : String
  mode_of_payment : String
  credit : Bool
deriving DecidableEq

/-- One step of the balance recurrence actually implemented by the code:
apply the signed delta, round to 2 decimals, then round to an integer at
persistence. -/
def txnStep (b : ℚ) (t : TxnInput) : ℚ :=
  ((pyRound (pyRound2 (if t.credit then t.amount + b else b - t.amount)) : ℤ) : ℚ)

/-- Fold the balance recurrence over a sequence of transaction inputs,
starting from the opening record's stored amount. -/
def foldBalances (init : ℚ) (ts : List TxnInput) : ℚ :=
  ts.foldl txnStep ((pyRound (pyRound2 init) : ℤ) : ℚ)

/-- Run a sequence of `transaction` calls; `some` only when every call
returns `"Transaction successful."`. -/
def runTxns (today : Date) (l : List Record) : List TxnInput → Option (List Record)
  | [] => some l
  | t :: ts =>
    match transaction l today t.amount t.category t.desc t.mode_of_payment t.credit with
    | none => none
    | some (s, l2) =>
      if s = "Transaction successful." then runTxns today l2 ts else none

/-! ## Report aggregation (`Account.print_report`, lines 197-274) -/

/-- The `month_end` local of `print_report`: `13`, or `today.month + 1` for
the current year. -/
def month_end (year : Nat) (today : Date) : Nat :=
  if year = today.year then today.month + 1 else 13

/-- `range(1, month_end)`: the months included for one year. -/
def monthsFor (year : Nat) (today : Date) : List Nat :=
  List.range' 1 (month_end year today - 1)

/-- `sorted(list({... .year for entry in data}))`: distinct years,
ascending. -/
def years_of (data : List Record) : List Nat :=
  List.insertionSort (· ≤ ·) (data.map (fun r => r.date.year)).dedup

/-- The ordered period axis: for each year in ascending order, its included
months in ascending order, as `(month, year)` pairs. -/
def periodAxis (data : List Record) (today : Date) : List (Nat × Nat) :=
  (years_of data).flatMap (fun y => (monthsFor y today).map (fun m => (m, y)))

/-- The header loop of `print_report` (lines 244-252): one label
`str(month) + "-" + str(year)` per included period. -/
def periodHeaders (data : List Record) (today : Date) : List String :=
  (years_of data).flatMap (fun year =>
    (monthsFor year today).map (fun month => toString month ++ "-" ++ toString year))

/-- The inner accumulation of `print_report` (lines 225-236): start from 0
and add each matching record's amount. -/
def cellSum (data : List Record) (category : String) (month year : Nat) : ℚ :=
  data.foldl (fun acc r =>
    acc + (if r.category = category ∧ r.date.month = month ∧ r.date.year = year
           then r.amount else 0)) 0

/-- One matrix cell: `round(amount, 2)` of the accumulated sum. -/
def cell (data : List Record) (category : String) (month year : Nat) : ℚ :=
  pyRound2 (cellSum data category month year)

/-- The spec's description of a cell: the sum of `amount` over the records
whose category and (month, year) match, rounded to 2 decimal places. -/
def cellSpec (data : List Record) (category : String) (month year : Nat) : ℚ :=
  pyRound2 (((data.filter (fun r =>
    decide (r.category = category ∧ r.date.month = month ∧ r.date.year = year))).map
      (fun r => r.amount)).sum)

/-- The `category_data` row built for one category (lines 219-237). -/
def category_row (data : List Record) (today : Date) (category : String) : List ℚ :=
  (years_of data).flatMap (fun year =>
    (monthsFor year today).map (fun month => cell data category month year))

/-- `categorized_data`: one row per category, in set-iteration order
`cats`. -/
def categorized_data (data : List Record) (today : Date) (cats : List String) :
    List (List ℚ) :=
  cats.map (category_row data today)

/-! ## Report rendering (lines 240-274) -/

/-- Left-pad with spaces to width `w` (Python `f"{s:>w}"`; numbers are also
right-aligned by default). Python never truncates on width. -/
def padLeft (s : String) (w : Nat) : String :=
  String.mk (List.replicate (w - s.length) ' ') ++ s

/-- Right-pad with spaces to width `w` (Python `f"{s:w}"` on a string). -/
def padRight (s : String) (w : Nat) : String :=
  s ++ String.mk (List.replicate (w - s.length) ' ')

/-- Stand-in for Python's `str` on a numeric amount; the code uses the same
serialisation for an amount in every output surface. -/
def showAmount (q : ℚ) : String := toString q

/-- The console output of `print_report`, as the ordered list of printed
chunks (a `"\n"` chunk for each `print()`), built by the code's own loops:
the header loop over years/months, then one row per category paired with
`categorized_data[index]`. -/
def consoleOut (data : List Record) (today : Date) (cats : List String) :
    List String :=
  [padRight "Category" 10]
    ++ ((years_of data).flatMap (fun year =>
          (monthsFor year today).map (fun month =>
            padLeft (toString month ++ "-" ++ toString year) 12)))
    ++ ["\n"]
    ++ (cats.zip (categorized_data data today cats)).flatMap (fun row =>
          [padRight row.1 10]
            ++ row.2.map (fun v => padLeft (showAmount v) 12)
            ++ ["\n"])

/-- The `txt` string accumulated by `print_report` and written to
`report.txt`. -/
def txtOut (data : List Record) (today : Date) (cats : List String) : String :=
  padRight "Category" 10
    ++ String.join ((years_of data).flatMap (fun year =>
          (monthsFor year today).map (fun month =>
            padLeft (toString month ++ "-" ++ toString year) 12)))
    ++ "\n"
    ++ String.join ((cats.zip (categorized_data data today cats)).map (fun row =>
          padRight row.1 10
            ++ String.join (row.2.map (fun v => padLeft (showAmount v) 12))
            ++ "\n"))

/-- The `html` string accumulated by `print_report` and handed to
`generate_html_file`. -/
def htmlOut (data : List Record) (today : Date) (cats : List String) : String :=
  "<table><tr><th>Category</th>"
    ++ String.join ((years_of data).flatMap (fun year =>
          (monthsFor year today).map (fun month =>
            "<th>" ++ toString month ++ "-" ++ toString year ++ "</th>")))
    ++ "</tr>"
    ++ String.join ((cats.zip (categorized_data data today cats)).map (fun row =>
          "<tr><td>" ++ row.1 ++ "</td>"
            ++ String.join (row.2.map (fun v => "<td>" ++ showAmount v ++ "</td>"))
            ++ "</tr>"))
    ++ "</table>"

/-- `Account.print_report`: the three outputs of one call, produced in a
single pass over the shared `categorized_data` matrix. -/
def print_report (data : List Record) (today : Date) (cats : List String) :
    List String × String × String :=
  (consoleOut data today cats, txtOut data today cats, htmlOut data today cats)

/-- Generic console rendering of a layout triple (headers, rows). -/
def consoleRender (hs : List String) (rows : List (String × List ℚ)) :
    List String :=
  [padRight "Category" 10] ++ hs.map (fun h => padLeft h 12) ++ ["\n"]
    ++ rows.flatMap (fun row =>
        [padRight row.1 10] ++ row.2.map (fun v => padLeft (showAmount v) 12) ++ ["\n"])

/-- Generic plain-text rendering of a layout triple (headers, rows). -/
def txtRender (hs : List String) (rows : List (String × List ℚ)) : String :=
  padRight "Category" 10 ++ String.join (hs.map (fun h => padLeft h 12)) ++ "\n"
    ++ String.join (rows.map (fun row =>
        padRight row.1 10
          ++ String.join (row.2.map (fun v => padLeft (showAmount v) 12)) ++ "\n"))

/-- Generic HTML rendering of a layout triple (headers, rows). -/
def htmlRender (hs : List String) (rows : List (String × List ℚ)) : String :=
  "<table><tr><th>Category</th>"
    ++ String.join (hs.map (fun h => "<th>" ++ h ++ "</th>")) ++ "</tr>"
    ++ String.join (rows.map (fun row =>
        "<tr><td>" ++ row.1 ++ "</td>"
          ++ String.join (row.2.map (fun v => "<td>" ++ showAmount v ++ "</td>"))
          ++ "</tr>"))
    ++ "</table>"

/-! ## Derived CSV exports (`generate_csv_file`, lines 140-195) -/

/-- Zero-pad a number to two digits, as in the `%Y-%m-%d` / `str(date)`
serialisation. -/
def pad2 (n : Nat) : String :=
  if n < 10 then "0" ++ toString n else toString n

/-- Zero-pad a year to four digits. -/
def pad4 (n : Nat) : String :=
  if n < 10 then "000" ++ toString n
  else if n < 100 then "00" ++ toString n
  else if n < 1000 then "0" ++ toString n
  else toString n

/-- The `YYYY-MM-DD` serialisation of a date, as written into
`ledger.csv`. -/
def showDate (d : Date) : String :=
  pad4 d.year ++ "-" ++ pad2 d.month ++ "-" ++ pad2 d.day

/-- `entry[key]`: look one CSV field up by name; a key absent from the
record raises `KeyError` (`none`). -/
def getField (r : Record) : String → Option String
  | "date" => some (showDate r.date)
  | "category" => some r.category
  | "desc" => some r.desc
  | "mode_of_payment" => some r.mode_of_payment
  | "amount" => some (showAmount r.amount)
  | _ => none

/-- `{key: entry[key] for key in keys}` for one record, in key order. -/
def projectRow (r : Record) : List String → Option (List String)
  | [] => some []
  | k :: ks =>
    match getField r k, projectRow r ks with
    | some v, some vs => some (v :: vs)
    | _, _ => none

/-- `data2 = [{key: entry[key] for key in keys} for entry in data]`. -/
def projectRows (keys : List String) : List Record → Option (List (List String))
  | [] => some []
  | r :: rs =>
    match projectRow r keys, projectRows keys rs with
    | some row, some rows => some (row :: rows)
    | _, _ => none

/-- `Account.generate_csv_file`: header (the given keys, the order of
`data2[0].keys()`) and one projected row per input row, preserving order.
`none` models a `KeyError` on a bad key or the `IndexError` of `data2[0]`
on an empty input file. -/
def generate_csv_file (data : List Record) (keys : List String) :
    Option (List String × List (List String)) :=
  match projectRows keys data with
  | none => none
  | some [] => none
  | some rows => some (keys, rows)

/-- `Account.generate_category_report`: the category view
`date, category, desc, amount`. -/
def generate_category_report (data : List Record) :
    Option (List String × List (List String)) :=
  generate_csv_file data ["date", "category", "desc", "amount"]

/-- `Account.generate_payment_report`: the payment view
`date, mode_of_payment, desc, amount`. -/
def generate_payment_report (data : List Record) :
    Option (List String × List (List String)) :=
  generate_csv_file data ["date", "mode_of_payment", "desc", "amount"]

/-- The category-view row of one record. -/
def catRow (r : Record) : List String :=
  [showDate r.date, r.category, r.desc, showAmount r.amount]

/-- The payment-view row of one record. -/
def payRow (r : Record) : List String :=
  [showDate r.date, r.mode_of_payment, r.desc, showAmount r.amount]

/-- The `date` cell of a view row (column 0 in both views). -/
def rowDate (row : List String) : String := row.headD ""

/-- The `desc` cell of a view row (column 2 in both views). -/
def rowDesc (row : List String) : String := (row.drop 2).headD ""

/-- The `amount` cell of a view row (column 3 in both views). -/
def rowAmount (row : List String) : String := (row.drop 3).headD ""

/-- Relational join of the two exports on `date` + `desc`: each pair of
rows agreeing on both join fields yields one merged row
`(date, desc, category-view amount, payment-view amount)`. -/
def joinViews (cat pay : List (List String)) :
    List (String × String × String × String) :=
  cat.flatMap (fun c =>
    (pay.filter (fun p => decide (rowDate p = rowDate c ∧ rowDesc p = rowDesc c))).map
      (fun p => (rowDate c, rowDesc c, rowAmount c, rowAmount p)))

/-- The `(date, desc, amount, amount)` tuple a join row should reconstruct
for one original record. -/
def joinTarget (r : Record) : String × String × String × String :=
  (showDate r.date, r.desc, showAmount r.amount, showAmount r.amount)

/-! ## Concrete sample data used by witnesses and counterexamples -/

/-- A fixed "today" for the samples. -/
def today0 : Date := ⟨2024, 1, 1⟩

/-- The account `Account("111222", "John Mitchell", 2000)`'s ledger right
after `__init__`. -/
def sampleLedger : List Record := mkAccount today0 2000

/-- The opening record that `__init__` writes for `sampleLedger`. -/
def openingRec : Record :=
  ⟨today0, "Credit", "Initial amount credited", "UPI", 2000⟩

/-- A credit of 500 followed by a debit of 1000. -/
def sampleTxns : List TxnInput :=
  [⟨500, "Credit", "Added credit", "UPI", true⟩,
   ⟨1000, "Food", "Groceries", "Card Payment", false⟩]

/-- The record appended by the sample credit of 500. -/
def rec2500 : Record := ⟨today0, "Credit", "Added credit", "UPI", 2500⟩

/-- The record appended by the sample debit of 1000. -/
def rec1500 : Record := ⟨today0, "Food", "Groceries", "Card Payment", 1500⟩

/-- The ledger reached from `sampleLedger` by `sampleTxns`. -/
def sampleLedger2 : List Record := [openingRec, rec2500, rec1500]

/-- Two records sharing `date` and `desc` but with different amounts. -/
def dupData : List Record :=
  [⟨⟨2024, 1, 1⟩, "Food", "x", "UPI", 10⟩,
   ⟨⟨2024, 1, 1⟩, "Rent", "x", "Card Payment", 20⟩]

/-! ## Evaluation lemmas for `pyRound` / `pyRound2` -/

lemma pyRound_of_floor (q : ℚ) (f : ℤ) (h1 : (f : ℚ) ≤ q) (h2 : q < f + 1)
    (h3 : q - f < 1/2) : pyRound q = f := by
  have hf : ⌊q⌋ = f := Int.floor_eq_iff.mpr ⟨h1, by linarith⟩
  rw [pyRound, hf, if_pos h3]

lemma pyRound_intCast (n : ℤ) : pyRound (n : ℚ) = n := by
  apply pyRound_of_floor <;> norm_num

lemma pyRound_half_even (q : ℚ) (f : ℤ) (heq : q = (f : ℚ) + 1/2)
    (he : f % 2 = 0) : pyRound q = f := by
  have hf : ⌊q⌋ = f :=
    Int.floor_eq_iff.mpr ⟨by rw [heq]; norm_num, by rw [heq]; norm_num⟩
  rw [pyRound, hf, if_neg (by rw [heq]; norm_num), if_neg (by rw [heq]; norm_num),
    if_pos he]

lemma pyRound2_intCast (n : ℤ) : pyRound2 (n : ℚ) = n := by
  have h : ((n : ℚ) * 100) = ((n * 100 : ℤ) : ℚ) := by push_cast; ring
  rw [pyRound2, h, pyRound_intCast]; push_cast; ring

lemma pyRound2_2000 : pyRound2 (2000 : ℚ) = 2000 := by
  have := pyRound2_intCast 2000; norm_num at this; exact this

lemma pyRound2_2500 : pyRound2 (2500 : ℚ) = 2500 := by
  have := pyRound2_intCast 2500; norm_num at this; exact this

lemma pyRound2_1500 : pyRound2 (1500 : ℚ) = 1500 := by
  have := pyRound2_intCast 1500; norm_num at this; exact this

lemma pyRound_2000 : pyRound (2000 : ℚ) = 2000 := by
  have := pyRound_intCast 2000; norm_num at this; exact this

lemma pyRound_2500 : pyRound (2500 : ℚ) = 2500 := by
  have := pyRound_intCast 2500; norm_num at this; exact this

lemma pyRound_1500 : pyRound (1500 : ℚ) = 1500 := by
  have := pyRound_intCast 1500; norm_num at this; exact this

/-! ## Basic ledger lemmas and concrete evaluations -/

lemma previous_balance_concat (l : List Record) (r : Record) :
    previous_balance (l ++ [r]) = some r.amount := by
  simp [previous_balance, List.getLast?_concat]

lemma previous_balance_ledger (l : List Record) (d : Date) (a : ℚ)
    (c ds m : String) :
    previous_balance (ledger l d a c ds m) = some ((pyRound a : ℤ) : ℚ) := by
  rw [ledger]; exact previous_balance_concat _ _

lemma transaction_eq_some (l : List Record) (today : Date) (a : ℚ)
    (c ds m : String) (cr : Bool) (b : ℚ)
    (hb : (if cr then credit_amount l a else debit l a) = some b) :
    transaction l today a c ds m cr
      = if b < 0 then some ("Unable to make transaction", l)
        else some ("Transaction successful.", ledger l today (pyRound2 b) c ds m) := by
  rw [transaction, hb]

lemma sampleLedger_eq : sampleLedger = [openingRec] := by
  rw [sampleLedger, mkAccount, ledger, pyRound2_2000, pyRound_2000]
  norm_num [openingRec]

lemma previous_balance_sampleLedger : previous_balance sampleLedger = some 2000 := by
  rw [sampleLedger_eq]
  show previous_balance ([] ++ [openingRec]) = some 2000
  rw [previous_balance_concat]
  rfl

/-- C7 --- `previous_balance` returns the amount of the *last-appended*
record (append order: the record most recently concatenated to the
history, whatever its date), and on an empty history it does not return a
value (`data[-1]` raises, modelled as `none`). -/
theorem previous_balance_last_appended :
    (∀ (l : List Record) (r : Record), previous_balance (l ++ [r]) = some r.amount)
      ∧ previous_balance ([] : List Record) = none :=
  ⟨previous_balance_concat, rfl⟩

/-- C6 (amended) --- `credit_amount` and `debit` are determined by the
current balance (the last stored amount) and the argument alone:
crediting returns exactly `amount + current` and debiting exactly
`current - amount`, with **no** rounding applied inside these
operations. -/
theorem balance_ops_exact (l : List Record) (a b : ℚ)
    (hb : previous_balance l = some b) :
    credit_amount l a = some (a + b) ∧ debit l a = some (b - a) := by
  constructor <;> simp [credit_amount, debit, hb]

/-- Witness for `balance_ops_exact` at the freshly opened sample
account. -/
theorem balance_ops_exact_witness :
    credit_amount sampleLedger 500 = some (500 + 2000)
      ∧ debit sampleLedger 500 = some (2000 - 500) :=
  balance_ops_exact sampleLedger 500 2000 previous_balance_sampleLedger

/-- C6 (counterexample) --- the claim says amounts are rounded to 2
decimal places at the point of computation; but crediting 1/8 = 0.125
onto a balance of 2000 returns exactly 2000.125, which is not a
2-decimal-place value (`round(2000.125, 2) = 2000.12 ≠ 2000.125`):
`credit_amount` and `debit` perform no rounding. -/
theorem credit_amount_rounding_counterexample :
    credit_amount sampleLedger (1/8) = some (1/8 + 2000)
      ∧ (1/8 + 2000 : ℚ) ≠ pyRound2 (1/8 + 2000) := by
  constructor
  · simp [credit_amount, previous_balance_sampleLedger]
  · have h : pyRound2 (1/8 + 2000) = 200012/100 := by
      have hh : pyRound ((1/8 + 2000 : ℚ) * 100) = 200012 :=
        pyRound_half_even _ 200012 (by norm_num) (by norm_num)
      rw [pyRound2, hh]; norm_num
    rw [h]; norm_num

/-- C9 --- every record persisted by `ledger` — the opening record written
by `__init__` and the record of every successful `transaction` — has its
amount passed through `round(...)` (no digits argument) immediately before
being written, so every stored amount is an integer whatever fractional
part the computed balance had. -/
theorem ledger_amounts_integral :
    (∀ (l : List Record) (d : Date) (a : ℚ) (c ds m : String),
        (ledger l d a c ds m).getLast?.map (fun r => r.amount)
          = some ((pyRound a : ℤ) : ℚ))
  ∧ (∀ (d : Date) (init : ℚ) (r : Record), r ∈ mkAccount d init → r.amount.den = 1)
  ∧ (∀ (l : List Record) (d : Date) (a : ℚ) (c ds m : String) (cr : Bool)
        (st : String) (l2 : List Record),
        transaction l d a c ds m cr = some (st, l2) →
        ∀ r ∈ l2, r ∈ l ∨ r.amount.den = 1) := by
  refine ⟨?_, ?_, ?_⟩
  · intro l d a c ds m
    simp [ledger, List.getLast?_concat]
  · intro d init r hr
    rw [mkAccount, ledger] at hr
    simp only [List.nil_append, List.mem_singleton] at hr
    rw [hr]
    exact Rat.den_intCast _
  · intro l d a c ds m cr st l2 h r hr
    cases hob : (if cr then credit_amount l a else debit l a) with
    | none => rw [transaction, hob] at h; exact absurd h (by simp)
    | some b =>
      rw [transaction_eq_some l d a c ds m cr b hob] at h
      by_cases hlt : b < 0
      · rw [if_pos hlt] at h
        have h2 : l = l2 := (Prod.ext_iff.mp (Option.some.inj h)).2
        rw [← h2] at hr
        exact Or.inl hr
      · rw [if_neg hlt] at h
        have h2 : ledger l d (pyRound2 b) c ds m = l2 :=
          (Prod.ext_iff.mp (Option.some.inj h)).2
        rw [← h2, ledger] at hr
        rcases List.mem_append.mp hr with hl | hs
        · exact Or.inl hl
        · rw [List.mem_singleton.mp hs]
          exact Or.inr (Rat.den_intCast _)

/-- Witness for `ledger_amounts_integral` at the opening record of the
sample account. -/
theorem ledger_amounts_integral_witness :
    openingRec ∈ mkAccount today0 2000 ∧ openingRec.amount.den = 1 := by
  have hm : openingRec ∈ mkAccount today0 2000 := by
    have h := sampleLedger_eq
    rw [sampleLedger] at h
    rw [h]
    exact List.mem_singleton_self _
  exact ⟨hm, ledger_amounts_integral.2.1 today0 2000 openingRec hm⟩

/-- C3 --- whenever the computed new balance is negative (in particular
for every debit strictly larger than the current balance), `transaction`
returns the rejection status `"Unable to make transaction"` and the ledger
is returned unchanged: no record is appended, so the balance seen by later
transactions is the same. -/
theorem transaction_rejects_negative_balance :
    (∀ (l : List Record) (today : Date) (a : ℚ) (c ds m : String) (cr : Bool) (b : ℚ),
        (if cr then credit_amount l a else debit l a) = some b → b < 0 →
        transaction l today a c ds m cr = some ("Unable to make transaction", l))
  ∧ (∀ (l : List Record) (today : Date) (a : ℚ) (c ds m : String) (prev : ℚ),
        previous_balance l = some prev → prev < a →
        transaction l today a c ds m false = some ("Unable to make transaction", l)) := by
  constructor
  · intro l today a c ds m cr b hb hneg
    rw [transaction_eq_some l today a c ds m cr b hb, if_pos hneg]
  · intro l today a c ds m prev hp hlt
    have hb : (if (false : Bool) then credit_amount l a else debit l a)
        = some (prev - a) := by simp [debit, hp]
    rw [transaction_eq_some l today a c ds m false (prev - a) hb,
      if_pos (sub_neg.mpr hlt)]

/-- Witness for `transaction_rejects_negative_balance`: debiting 3000 from
the freshly opened balance of 2000 is rejected and leaves the ledger as it
was. -/
theorem transaction_rejects_negative_balance_witness :
    transaction sampleLedger today0 3000 "Food" "Groceries" "UPI" false
      = some ("Unable to make transaction", sampleLedger) :=
  transaction_rejects_negative_balance.2 sampleLedger today0 3000 "Food" "Groceries"
    "UPI" 2000 previous_balance_sampleLedger (by norm_num)

/-! ## C1: what `transaction` actually appends -/

lemma pyRound2_2000h : pyRound2 (1/2 + 2000 : ℚ) = 4001/2 := by
  have h : ((1/2 + 2000 : ℚ) * 100) = ((200050 : ℤ) : ℚ) := by norm_num
  rw [pyRound2, h, pyRound_intCast]; norm_num

lemma pyRound_2000h : pyRound ((4001 : ℚ)/2) = 2000 :=
  pyRound_half_even _ 2000 (by norm_num) (by norm_num)

/-- C1 (counterexample) --- crediting 1/2 = 0.50 onto the freshly opened
balance of 2000 succeeds with a new balance of 2000.5, yet the appended
record's amount is 2000, not `round(2000.5, 2) = 2000.5`: `ledger` applies
an extra `round(...)` to a whole number before persisting. -/
theorem transaction_round2_counterexample :
    transaction sampleLedger today0 (1/2) "Credit" "extra" "UPI" true
      = some ("Transaction successful.",
              sampleLedger ++ [⟨today0, "Credit", "extra", "UPI", 2000⟩])
  ∧ pyRound2 (1/2 + 2000) ≠ (2000 : ℚ) := by
  have hb : (if true then credit_amount sampleLedger (1/2) else debit sampleLedger (1/2))
      = some (1/2 + 2000) := by
    simp [credit_amount, previous_balance_sampleLedger]
  constructor
  · rw [transaction_eq_some _ _ _ _ _ _ _ _ hb, if_neg (by norm_num), ledger,
      pyRound2_2000h, pyRound_2000h]
    norm_num
  · rw [pyRound2_2000h]; norm_num

lemma runTxns_previous_balance (today : Date) :
    ∀ (ts : List TxnInput) (l l2 : List Record) (b : ℚ),
      previous_balance l = some b →
      runTxns today l ts = some l2 →
      previous_balance l2 = some (ts.foldl txnStep b) := by
  intro ts
  induction ts with
  | nil =>
    intro l l2 b hb h
    rw [runTxns] at h
    rw [← Option.some.inj h]
    simpa using hb
  | cons t ts ih =>
    intro l l2 b hb h
    have hob : (if t.credit then credit_amount l t.amount else debit l t.amount)
        = some (if t.credit then t.amount + b else b - t.amount) := by
      cases hc : t.credit <;> simp [credit_amount, debit, hb]
    rw [runTxns, transaction_eq_some _ _ _ _ _ _ _ _ hob] at h
    by_cases hlt : (if t.credit then t.amount + b else b - t.amount) < 0
    · rw [if_pos hlt] at h
      simp at h
    · rw [if_neg hlt] at h
      simp at h
      exact ih _ l2 (txnStep b t) (previous_balance_ledger _ _ _ _ _ _) h

/-- C1 (amended) --- each successful `transaction` appends exactly one
record whose stored amount is `round(round(new_balance, 2))` — the
2-decimal rounding followed by `ledger`'s rounding to a whole number —
and consequently, after any all-successful sequence of transactions from
the opening record, the last stored amount is the fold of the deltas with
that double rounding applied after each step (`foldBalances`), not the
fold with 2-decimal rounding alone. -/
theorem transaction_appends_int_rounded_balance :
    (∀ (l : List Record) (today : Date) (a : ℚ) (c ds m : String) (cr : Bool)
        (l2 : List Record),
        transaction l today a c ds m cr = some ("Transaction successful.", l2) →
        ∃ b, (if cr then credit_amount l a else debit l a) = some b ∧ 0 ≤ b ∧
          l2 = l ++ [⟨today, c, ds, m, ((pyRound (pyRound2 b) : ℤ) : ℚ)⟩])
  ∧ (∀ (today : Date) (init : ℚ) (ts : List TxnInput) (l2 : List Record),
        runTxns today (mkAccount today init) ts = some l2 →
        previous_balance l2 = some (foldBalances init ts)) := by
  constructor
  · intro l today a c ds m cr l2 h
    cases hob : (if cr then credit_amount l a else debit l a) with
    | none => rw [transaction, hob] at h; exact absurd h (by simp)
    | some b =>
      rw [transaction_eq_some _ _ _ _ _ _ _ _ hob] at h
      by_cases hlt : b < 0
      · rw [if_pos hlt] at h
        have hp := Option.some.inj h
        rw [Prod.mk.injEq] at hp
        exact absurd hp.1 (by decide)
      · rw [if_neg hlt] at h
        have hp := Option.some.inj h
        rw [Prod.mk.injEq] at hp
        refine ⟨b, rfl, not_lt.mp hlt, ?_⟩
        rw [← hp.2, ledger]
  · intro today init ts l2 h
    have h0 : previous_balance (mkAccount today init)
        = some ((pyRound (pyRound2 init) : ℤ) : ℚ) := by
      rw [mkAccount]; exact previous_balance_ledger _ _ _ _ _ _
    exact runTxns_previous_balance today ts _ l2 _ h0 h

lemma previous_balance_openingRec : previous_balance [openingRec] = some 2000 := by
  show previous_balance ([] ++ [openingRec]) = some 2000
  rw [previous_balance_concat]; rfl

lemma runTxns_cons_success (today : Date) (l : List Record) (t : TxnInput)
    (ts : List TxnInput) (l2 : List Record)
    (h : transaction l today t.amount t.category t.desc t.mode_of_payment t.credit
      = some ("Transaction successful.", l2)) :
    runTxns today l (t :: ts) = runTxns today l2 ts := by
  rw [runTxns, h]
  show (if "Transaction successful." = "Transaction successful."
      then runTxns today l2 ts else none) = runTxns today l2 ts
  rw [if_pos rfl]

lemma htx1 : transaction [openingRec] today0 500 "Credit" "Added credit" "UPI" true
    = some ("Transaction successful.", [openingRec, rec2500]) := by
  have hb1 : (if true then credit_amount [openingRec] 500 else debit [openingRec] 500)
      = some 2500 := by
    simp [credit_amount, previous_balance_openingRec]
    norm_num
  rw [transaction_eq_some _ _ _ _ _ _ _ _ hb1, if_neg (by norm_num), ledger,
    pyRound2_2500, pyRound_2500]
  norm_num [rec2500]

lemma htx2 : transaction [openingRec, rec2500] today0 1000 "Food" "Groceries"
      "Card Payment" false
    = some ("Transaction successful.", [openingRec, rec2500, rec1500]) := by
  have hpb : previous_balance [openingRec, rec2500] = some 2500 := by
    show previous_balance ([openingRec] ++ [rec2500]) = some 2500
    rw [previous_balance_concat]; rfl
  have hb2 : (if false then credit_amount [openingRec, rec2500] 1000
      else debit [openingRec, rec2500] 1000) = some 1500 := by
    simp [debit, hpb]
    norm_num
  rw [transaction_eq_some _ _ _ _ _ _ _ _ hb2, if_neg (by norm_num), ledger,
    pyRound2_1500, pyRound_1500]
  norm_num [rec1500]

lemma runTxns_sample : runTxns today0 (mkAccount today0 2000) sampleTxns
    = some [openingRec, rec2500, rec1500] := by
  have e0 : mkAccount today0 2000 = [openingRec] := by
    have h := sampleLedger_eq
    rwa [sampleLedger] at h
  rw [e0, sampleTxns]
  rw [runTxns_cons_success today0 [openingRec]
    ⟨500, "Credit", "Added credit", "UPI", true⟩ _ [openingRec, rec2500] htx1]
  rw [runTxns_cons_success today0 [openingRec, rec2500]
    ⟨1000, "Food", "Groceries", "Card Payment", false⟩ _ [openingRec, rec2500, rec1500] htx2]
  rw [runTxns]

/-- Witness for `transaction_appends_int_rounded_balance`: opening with
2000, crediting 500 and debiting 1000 all succeed and the last stored
amount equals `foldBalances 2000 sampleTxns`. -/
theorem transaction_appends_int_rounded_balance_witness :
    runTxns today0 (mkAccount today0 2000) sampleTxns = some sampleLedger2
      ∧ previous_balance sampleLedger2 = some (foldBalances 2000 sampleTxns) := by
  have h : runTxns today0 (mkAccount today0 2000) sampleTxns = some sampleLedger2 := by
    rw [sampleLedger2]; exact runTxns_sample
  exact ⟨h, transaction_appends_int_rounded_balance.2 today0 2000 sampleTxns
    sampleLedger2 h⟩

/-! ## C2: the period axis and its current-year truncation -/

lemma mem_monthsFor (m y : Nat) (today : Date) :
    m ∈ monthsFor y today
      ↔ 1 ≤ m ∧ m ≤ (if y = today.year then today.month else 12) := by
  rw [monthsFor, List.mem_range'_1, month_end]
  by_cases h : y = today.year <;> simp [h] <;> omega

lemma mem_periodAxis (data : List Record) (today : Date) (m y : Nat) :
    (m, y) ∈ periodAxis data today ↔ y ∈ years_of data ∧ m ∈ monthsFor y today := by
  rw [periodAxis, List.mem_flatMap]
  constructor
  · rintro ⟨y2, hy2, hm⟩
    rw [List.mem_map] at hm
    obtain ⟨m2, hm2, heq⟩ := hm
    cases heq
    exact ⟨hy2, hm2⟩
  · rintro ⟨hy, hm⟩
    exact ⟨y, hy, List.mem_map.mpr ⟨m, hm, rfl⟩⟩

lemma dedup_of_all_eq (a : Nat) :
    ∀ l : List Nat, l ≠ [] → (∀ x ∈ l, x = a) → l.dedup = [a] := by
  intro l
  induction l with
  | nil => intro h; exact absurd rfl h
  | cons b t ih =>
    intro _ hall
    have hb : b = a := hall b (List.mem_cons_self b t)
    cases t with
    | nil => rw [hb]; rfl
    | cons c u =>
      have hmem : b ∈ c :: u := by
        rw [hb, hall c (List.mem_cons_of_mem _ (List.mem_cons_self c u))]
        exact List.mem_cons_self a u
      rw [List.dedup_cons_of_mem hmem]
      exact ih (by simp) (fun x hx => hall x (List.mem_cons_of_mem _ hx))

lemma years_of_all2024 (data : List Record) (hne : data ≠ [])
    (hall : ∀ r ∈ data, r.date.year = 2024) : years_of data = [2024] := by
  rw [years_of]
  have hd : (data.map (fun r => r.date.year)).dedup = [2024] := by
    refine dedup_of_all_eq 2024 _ (by simpa using hne) ?_
    intro x hx
    rw [List.mem_map] at hx
    obtain ⟨r, hr, rfl⟩ := hx
    exact hall r hr
  rw [hd]
  rfl

/-- C2 --- in the period axis, a period `(m, y)` appears exactly when `y`
is one of the years present and `1 ≤ m ≤ 12`, except that for the current
year the bound is the current month (`month_end = today.month + 1`); in
particular, with today = 2024-06-15 and records dated only in 2024, the
axis is exactly months 1–6 of 2024 and never contains month 7 or later. -/
theorem period_axis_truncation :
    (∀ (data : List Record) (today : Date) (m y : Nat),
        (m, y) ∈ periodAxis data today ↔
          y ∈ years_of data ∧ 1 ≤ m ∧ m ≤ (if y = today.year then today.month else 12))
  ∧ (∀ data : List Record, data ≠ [] → (∀ r ∈ data, r.date.year = 2024) →
        periodAxis data ⟨2024, 6, 15⟩
          = [(1, 2024), (2, 2024), (3, 2024), (4, 2024), (5, 2024), (6, 2024)]) := by
  constructor
  · intro data today m y
    rw [mem_periodAxis, mem_monthsFor]
  · intro data hne hall
    rw [periodAxis, years_of_all2024 data hne hall]
    rfl

/-- Witness for `period_axis_truncation` on a one-record 2024 history. -/
theorem period_axis_truncation_witness :
    periodAxis [openingRec] ⟨2024, 6, 15⟩
      = [(1, 2024), (2, 2024), (3, 2024), (4, 2024), (5, 2024), (6, 2024)] :=
  period_axis_truncation.2 [openingRec] (by simp)
    (by intro r hr; rw [List.mem_singleton.mp hr]; rfl)

/-! ## C10: header count = row width -/

lemma category_row_eq_map (data : List Record) (today : Date) (c : String) :
    category_row data today c
      = (periodAxis data today).map (fun p => cell data c p.1 p.2) := by
  rw [category_row, periodAxis, List.map_flatMap]
  simp only [List.map_map]
  rfl

lemma periodHeaders_length (data : List Record) (today : Date) :
    (periodHeaders data today).length = (periodAxis data today).length := by
  rw [periodHeaders, periodAxis, List.length_flatMap, List.length_flatMap]
  simp [Function.comp_def]

/-- C10 --- the header loop and the matrix loop traverse the identical
per-year month ranges, so the list of row lengths of `categorized_data` is
constantly the number of period headers: every category row has exactly
one cell per period column. -/
theorem report_header_row_length_match (data : List Record) (today : Date)
    (cats : List String) :
    (categorized_data data today cats).map List.length
      = List.replicate cats.length (periodHeaders data today).length := by
  rw [categorized_data, List.map_map]
  rw [show (List.length ∘ category_row data today)
      = fun _ : String => (periodHeaders data today).length from ?_]
  · exact List.map_const' _ _
  · funext c
    show (category_row data today c).length = (periodHeaders data today).length
    rw [category_row_eq_map, List.length_map, periodHeaders_length]

/-! ## C4: each matrix cell is the rounded filtered sum -/

lemma cellSum_eq (data : List Record) (c : String) (m y : Nat) :
    cellSum data c m y
      = ((data.filter (fun r =>
            decide (r.category = c ∧ r.date.month = m ∧ r.date.year = y))).map
          (fun r => r.amount)).sum := by
  rw [cellSum]
  suffices h : ∀ (l : List Record) (a : ℚ),
      l.foldl (fun acc r =>
        acc + (if r.category = c ∧ r.date.month = m ∧ r.date.year = y
               then r.amount else 0)) a
        = a + ((l.filter (fun r =>
            decide (r.category = c ∧ r.date.month = m ∧ r.date.year = y))).map
              (fun r => r.amount)).sum by
    simpa using h data 0
  intro l
  induction l with
  | nil => intro a; simp
  | cons r t ih =>
    intro a
    rw [List.foldl_cons, ih, List.filter_cons]
    by_cases hp : r.category = c ∧ r.date.month = m ∧ r.date.year = y
    · rw [if_pos hp, if_pos (by simpa using hp), List.map_cons, List.sum_cons]
      ring
    · rw [if_neg hp, if_neg (by simpa using hp)]
      ring

lemma pyRound2_zero : pyRound2 (0 : ℚ) = 0 := by
  have h := pyRound2_intCast 0
  norm_num at h
  exact h

lemma cell_eq_cellSpec (data : List Record) (c : String) (m y : Nat) :
    cell data c m y = cellSpec data c m y := by
  rw [cell, cellSpec, cellSum_eq]

/-- C4 --- the aggregation matrix has, for every category (row order =
`cats`) and every period on the axis (column order = axis order), the sum
of `amount` over exactly the records matching that category and that
(month, year), rounded to 2 decimal places; a period with no matching
records yields 0. -/
theorem aggregation_cell_spec :
    (∀ (data : List Record) (today : Date) (cats : List String),
        categorized_data data today cats
          = cats.map (fun c => (periodAxis data today).map
              (fun p => cellSpec data c p.1 p.2)))
  ∧ (∀ (data : List Record) (c : String) (m y : Nat),
        data.filter (fun r =>
          decide (r.category = c ∧ r.date.month = m ∧ r.date.year = y)) = [] →
        cell data c m y = 0) := by
  constructor
  · intro data today cats
    rw [categorized_data]
    refine List.map_congr_left (fun c _ => ?_)
    rw [category_row_eq_map]
    exact List.map_congr_left (fun p _ => cell_eq_cellSpec ..)
  · intro data c m y hf
    rw [cell, cellSum_eq, hf]
    simpa using pyRound2_zero

/-- Witness for `aggregation_cell_spec`: the opening record matches
neither category "Food" nor period (5, 2023), and the cell is 0. -/
theorem aggregation_cell_spec_witness :
    ([openingRec].filter (fun r =>
        decide (r.category = "Food" ∧ r.date.month = 5 ∧ r.date.year = 2023)) = [])
      ∧ cell [openingRec] "Food" 5 2023 = 0 := by
  have hf : [openingRec].filter (fun r =>
      decide (r.category = "Food" ∧ r.date.month = 5 ∧ r.date.year = 2023)) = [] := by
    simp [openingRec]
  exact ⟨hf, aggregation_cell_spec.2 [openingRec] "Food" 5 2023 hf⟩

/-! ## C5: the three renderings share one layout -/

lemma map_periodHeaders (data : List Record) (today : Date) (f : String → String) :
    (periodHeaders data today).map f
      = (years_of data).flatMap (fun year => (monthsFor year today).map
          (fun month => f (toString month ++ "-" ++ toString year))) := by
  rw [periodHeaders, List.map_flatMap]
  simp only [List.map_map]
  rfl

/-- C5 --- one `print_report` call renders the console chunks, the
`report.txt` string and the HTML table from the single shared layout: the
same period-header list `periodHeaders` and the same `cats`-ordered rows
of the one `categorized_data` matrix; hence all three formats show
identical category rows, identical period columns and identical cell
values in identical order. -/
theorem print_report_shared_layout (data : List Record) (today : Date)
    (cats : List String) :
    print_report data today cats
      = (consoleRender (periodHeaders data today)
            (cats.zip (categorized_data data today cats)),
         txtRender (periodHeaders data today)
            (cats.zip (categorized_data data today cats)),
         htmlRender (periodHeaders data today)
            (cats.zip (categorized_data data today cats))) := by
  rw [print_report, consoleOut, txtOut, htmlOut, consoleRender, txtRender, htmlRender,
    map_periodHeaders, map_periodHeaders]
  rfl

/-! ## C8: the two view exports and their join -/

lemma projectRow_cat (r : Record) :
    projectRow r ["date", "category", "desc", "amount"] = some (catRow r) := rfl

lemma projectRow_pay (r : Record) :
    projectRow r ["date", "mode_of_payment", "desc", "amount"] = some (payRow r) := rfl

lemma projectRows_map (keys : List String) (f : Record → List String)
    (hf : ∀ r, projectRow r keys = some (f r)) :
    ∀ data : List Record, projectRows keys data = some (data.map f) := by
  intro data
  induction data with
  | nil => rfl
  | cons r rs ih => simp [projectRows, hf r, ih]

lemma generate_category_report_eq (data : List Record) (hne : data ≠ []) :
    generate_category_report data
      = some (["date", "category", "desc", "amount"], data.map catRow) := by
  cases data with
  | nil => exact absurd rfl hne
  | cons r rs =>
    rw [generate_category_report, generate_csv_file,
      projectRows_map _ catRow projectRow_cat (r :: rs)]
    rfl

lemma generate_payment_report_eq (data : List Record) (hne : data ≠ []) :
    generate_payment_report data
      = some (["date", "mode_of_payment", "desc", "amount"], data.map payRow) := by
  cases data with
  | nil => exact absurd rfl hne
  | cons r rs =>
    rw [generate_payment_report, generate_csv_file,
      projectRows_map _ payRow projectRow_pay (r :: rs)]
    rfl

lemma filter_key_singleton (data : List Record)
    (hnd : (data.map (fun r => (showDate r.date, r.desc))).Nodup) :
    ∀ r ∈ data, data.filter (fun x =>
      decide (showDate x.date = showDate r.date ∧ x.desc = r.desc)) = [r] := by
  induction data with
  | nil => intro r hr; exact absurd hr (List.not_mem_nil r)
  | cons a t ih =>
    rw [List.map_cons, List.nodup_cons] at hnd
    obtain ⟨hna, hnt⟩ := hnd
    intro r hr
    rcases List.mem_cons.mp hr with rfl | hrt
    · rw [List.filter_cons, if_pos (by simp)]
      have hemp : t.filter (fun x =>
          decide (showDate x.date = showDate r.date ∧ x.desc = r.desc)) = [] := by
        rw [List.filter_eq_nil_iff]
        intro x hx
        simp only [decide_eq_true_eq]
        rintro ⟨h1, h2⟩
        exact hna (List.mem_map.mpr ⟨x, hx, by rw [h1, h2]⟩)
      rw [hemp]
    · have hne2 : ¬(showDate a.date = showDate r.date ∧ a.desc = r.desc) := by
        rintro ⟨h1, h2⟩
        exact hna (List.mem_map.mpr ⟨r, hrt, by rw [h1, h2]⟩)
      rw [List.filter_cons, if_neg (by simpa using hne2)]
      exact ih hnt r hrt

lemma flatMap_singleton_eq_map (f : Record → String × String × String × String) :
    ∀ l : List Record, (l.flatMap fun x => [f x]) = l.map f := by
  intro l
  induction l with
  | nil => rfl
  | cons a t ih => simp [ih]

lemma joinViews_reconstruct (data : List Record)
    (hnd : (data.map (fun r => (showDate r.date, r.desc))).Nodup) :
    joinViews (data.map catRow) (data.map payRow) = data.map joinTarget := by
  rw [joinViews, List.flatMap_map]
  have key : ∀ r ∈ data,
      (((data.map payRow).filter (fun p =>
          decide (rowDate p = rowDate (catRow r) ∧ rowDesc p = rowDesc (catRow r)))).map
        (fun p => (rowDate (catRow r), rowDesc (catRow r), rowAmount (catRow r),
          rowAmount p)))
      = [joinTarget r] := by
    intro r hr
    rw [List.filter_map]
    have hc : ((fun p => decide (rowDate p = rowDate (catRow r)
          ∧ rowDesc p = rowDesc (catRow r))) ∘ payRow)
        = (fun x => decide (showDate x.date = showDate r.date ∧ x.desc = r.desc)) := rfl
    rw [hc, filter_key_singleton data hnd r hr]
    rfl
  rw [List.flatMap_congr key]
  exact flatMap_singleton_eq_map joinTarget data

/-- C8 (amended) --- the category view exports exactly the fields
`date, category, desc, amount` and the payment view exactly
`date, mode_of_payment, desc, amount`, one row per ledger row in ledger
order; joining the two on `date` + `desc` reconstructs each record's
`date`, `desc` and `amount` (from both views) exactly — **provided** no
two records share the same `(date, desc)` pair, since a relational join
on a non-key duplicates rows. -/
theorem export_projection_and_join (data : List Record) (hne : data ≠ [])
    (hnd : (data.map (fun r => (showDate r.date, r.desc))).Nodup) :
    generate_category_report data
        = some (["date", "category", "desc", "amount"], data.map catRow)
  ∧ generate_payment_report data
        = some (["date", "mode_of_payment", "desc", "amount"], data.map payRow)
  ∧ joinViews (data.map catRow) (data.map payRow) = data.map joinTarget :=
  ⟨generate_category_report_eq data hne, generate_payment_report_eq data hne,
    joinViews_reconstruct data hnd⟩

/-- Witness for `export_projection_and_join` on the one-record opening
history. -/
theorem export_projection_and_join_witness :
    generate_category_report [openingRec]
        = some (["date", "category", "desc", "amount"], [catRow openingRec])
  ∧ generate_payment_report [openingRec]
        = some (["date", "mode_of_payment", "desc", "amount"], [payRow openingRec])
  ∧ joinViews [catRow openingRec] [payRow openingRec] = [joinTarget openingRec] := by
  have h := export_projection_and_join [openingRec] (by simp) (by simp)
  simpa using h

/-- C8 (counterexample) --- on a history with two records sharing `date`
and `desc`, the join of the two exports has four rows, so it does *not*
reconstruct the two original records: the claim fails as stated for such
histories. -/
theorem export_join_counterexample :
    generate_category_report dupData
        = some (["date", "category", "desc", "amount"], dupData.map catRow)
  ∧ generate_payment_report dupData
        = some (["date", "mode_of_payment", "desc", "amount"], dupData.map payRow)
  ∧ joinViews (dupData.map catRow) (dupData.map payRow) ≠ dupData.map joinTarget := by
  refine ⟨generate_category_report_eq dupData (by simp [dupData]),
    generate_payment_report_eq dupData (by simp [dupData]), ?_⟩
  intro h
  have hlen := congrArg List.length h
  rw [show (joinViews (dupData.map catRow) (dupData.map payRow)).length = 4 from rfl,
    show (dupData.map joinTarget).length = 2 from rfl] at hlen
  exact absurd hlen (by norm_num)

end Accounts
